import Mathlib

/-!
Shallow embedding of the mattermost-informer controller
(src/pkg/controller/controller.go) and proofs about its reconciliation,
debounce and retry logic.

Timestamps are Nat nanoseconds measured from Go's zero time.Time, so the
zero value read from a Go map of time.Time is the Nat 0 and
time.Since t = now - t (as an Int, Go's time.Duration).  Go maps with
zero-value reads are association lists with a defaulting lookup.
-/

/-- Nanoseconds per second: Go's time.Second. -/
def nsPerSecond : Int := 1000000000

/-- A Go map[string]time.Time or map[string]int with zero-value reads:
an association list over String keys with Nat values. -/
abbrev NatMap := List (String × Nat)

/-- Go map read m[k]: the stored value, or the zero value 0 when absent. -/
def nGet (m : NatMap) (k : String) : Nat :=
  match m.find? (fun p => p.1 == k) with
  | some p => p.2
  | none => 0

/-- Whether the map holds an entry for k (the comma-ok read of a Go map). -/
def nHas (m : NatMap) (k : String) : Bool :=
  (m.find? (fun p => p.1 == k)).isSome

/-- Go map write m[k] = v. -/
def nSet (m : NatMap) (k : String) (v : Nat) : NatMap :=
  (k, v) :: m.filter (fun p => !(p.1 == k))

/-- Go delete(m, k). -/
def nDel (m : NatMap) (k : String) : NatMap :=
  m.filter (fun p => !(p.1 == k))

structure ContainerStateWaiting where
  reason : String
deriving DecidableEq

structure ContainerStateTerminated where
  reason : String
deriving DecidableEq

/-- v1.ContainerState: the Waiting and Terminated pointers the controller
reads (the Running arm is never consulted). -/
structure ContainerState where
  waiting : Option ContainerStateWaiting
  terminated : Option ContainerStateTerminated
deriving DecidableEq

/-- v1.ContainerStatus restricted to the fields the controller reads. -/
structure ContainerStatus where
  name : String
  ready : Bool
  state : ContainerState
  lastTerminationState : ContainerState
deriving DecidableEq

structure PodStatus where
  containerStatuses : List ContainerStatus
deriving DecidableEq

/-- v1.Pod restricted to the fields the controller reads: metadata name,
metadata namespace, the metadata annotation map, and the status. -/
structure Pod where
  name : String
  ns : String
  annots : List (String × String)
  status : PodStatus
deriving DecidableEq

/-- Go map read pod.GetAnnotations()[k]: zero value "" when absent. -/
def annGet (annots : List (String × String)) (k : String) : String :=
  match annots.find? (fun p => p.1 == k) with
  | some p => p.2
  | none => ""

/-- Go constant annotationEnableMattermost. -/
def annEnableMattermost : String := "espe.tech/mattermost"

/-- Go constant annotationEnableMattermostInform. -/
def annEnableMattermostInform : String := "inform"

/-- Go hasValidAnnotation: the pod opts in when its mattermost annotation
equals "inform". -/
def hasValidAnn (pod : Pod) : Bool :=
  annGet pod.annots annEnableMattermost == annEnableMattermostInform

/-- Value of a decimal digit character. -/
def digitVal (c : Char) : Option Nat :=
  if c.isDigit then some (c.toNat - 48) else none

/-- Decimal numeral parser: the digits of the list, or none on a non-digit. -/
def parseDigits : List Char → Nat → Option Nat
  | [], acc => some acc
  | c :: cs, acc =>
    match digitVal c with
    | some d => parseDigits cs (acc * 10 + d)
    | none => none

/-- Nonempty decimal numeral. -/
def parseNat1 : List Char → Option Nat
  | [] => none
  | cs => parseDigits cs 0

/-- strconv.Atoi, success side: some n when s is an optionally signed decimal
numeral, none on a syntax error (in which case Go's Atoi returns the value 0,
which the caller below uses).  Atoi's int64-range saturation is not modelled;
no claim depends on out-of-range numerals. -/
def atoi (s : String) : Option Int :=
  match s.data with
  | '+' :: cs => (parseNat1 cs).map (fun n => (n : Int))
  | '-' :: cs => (parseNat1 cs).map (fun n => -(n : Int))
  | cs => (parseNat1 cs).map (fun n => (n : Int))

/-- Go constant annotationMattermostBackoff. -/
def annMattermostBackoff : String := "espe.tech/mattermost-backoff"

/-- Go constant annotationMattermostBackoffDefault = 10 * time.Minute. -/
def annMattermostBackoffDefault : Int := 600 * nsPerSecond

/-- The backoff window refreshBackoff computes (controller.go lines 78-83):
start from the default; when the backoff annotation value is non-empty the
reassignment is guarded by err != nil (an inverted condition), so a parse
FAILURE installs Atoi's zero result - a 0-second window - while a parse
success leaves the default in place. -/
def backoffOf (pod : Pod) : Int :=
  let backoffVal := annGet pod.annots annMattermostBackoff
  if backoffVal ≠ "" then
    match atoi backoffVal with
    | some _ => annMattermostBackoffDefault
    | none => 0 * nsPerSecond
  else annMattermostBackoffDefault

/-- Go refreshBackoff: if time.Since(c.timeouts[pod.GetName()]) < backoff
return false, else stamp c.timeouts[pod.GetName()] = now and return true.
The map is keyed by pod.GetName() alone.  Returns the Go boolean together
with the updated timeouts map. -/
def refreshBackoff (pod : Pod) (now : Nat) (timeouts : NatMap) : Bool × NatMap :=
  if (now : Int) - (nGet timeouts pod.name : Int) < backoffOf pod then
    (false, timeouts)
  else
    (true, nSet timeouts pod.name now)

/-- Go clearTimeout: delete(c.timeouts, pod.GetName()). -/
def clearTimeout (pod : Pod) (timeouts : NatMap) : NatMap :=
  nDel timeouts pod.name

structure SlackField where
  title : String
  value : String
deriving DecidableEq

/-- model.SlackAttachment restricted to the fields the controller sets. -/
structure SlackAttachment where
  color : String
  text : String
  title : String
  fields : List SlackField
deriving DecidableEq

/-- External collaborators of sendCrashNotification: the pods/log GET
(arguments: namespace, pod name, container name; none models a failed
request, in which case Raw() yields no bytes) and the Mattermost send,
whose error result the Go code discards. -/
structure Env where
  fetchLogs : String → String → String → Option String
  notifySend : SlackAttachment → Option String

/-- Go sendCrashNotification: fetches logs best-effort (logs, _ := ...: the
error is discarded, a failure leaves the byte slice empty), builds the
attachment, appends the Reason field when LastTerminationState.Terminated is
set, and hands the attachment to SendAttachements, whose outcome the Go code
discards.  We return the attachment together with that discarded outcome. -/
def sendCrashNotification (env : Env) (pod : Pod) (container : ContainerStatus) :
    SlackAttachment × Option String :=
  let logs : String :=
    match env.fetchLogs pod.ns pod.name container.name with
    | some s => s
    | none => ""
  let message :=
    "Container " ++ container.name ++ " of pod " ++ pod.name ++
      " keeps crashing, maybe its time to intervene."
  let baseFields : List SlackField := [⟨"Logs", "```\n" ++ logs ++ "```"⟩]
  let fields :=
    match container.lastTerminationState.terminated with
    | some term => baseFields ++ [⟨"Reason", term.reason⟩]
    | none => baseFields
  let att : SlackAttachment := ⟨"#AD2200", message, "Crash loop detected!", fields⟩
  (att, env.notifySend att)

/-- Reason of the current waiting state.  Only consulted under the
Waiting != nil guard of handlePodUpdate, so the "" default is inert. -/
def waitingReason (c : ContainerStatus) : String :=
  match c.state.waiting with
  | some w => w.reason
  | none => ""

/-- Go handlePodUpdate loop over the container statuses, threading
c.timeouts.  Besides the updated map it returns, as observations of the run:
the containers that reached the "CrashLoopBackOff" switch case - i.e. for
which an alert was attempted and the debounce gate consulted - and the
notifications actually handed to the notifier, each with the notifier's
discarded result. -/
def handleContainers (env : Env) (pod : Pod) (now : Nat) :
    List ContainerStatus → NatMap →
      NatMap × List ContainerStatus × List (SlackAttachment × Option String)
  | [], ts => (ts, [], [])
  | c :: rest, ts =>
    if !c.ready && c.state.waiting.isSome && hasValidAnn pod then
      if waitingReason c == "CrashLoopBackOff" then
        let r := refreshBackoff pod now ts
        let rest' := handleContainers env pod now rest r.2
        if r.1 then
          (rest'.1, c :: rest'.2.1, sendCrashNotification env pod c :: rest'.2.2)
        else
          (rest'.1, c :: rest'.2.1, rest'.2.2)
      else
        handleContainers env pod now rest ts
    else
      handleContainers env pod now rest ts

/-- Go handlePodUpdate. -/
def handlePodUpdate (env : Env) (pod : Pod) (now : Nat) (timeouts : NatMap) :
    NatMap × List ContainerStatus × List (SlackAttachment × Option String) :=
  handleContainers env pod now pod.status.containerStatuses timeouts

/-- The condition under which handlePodUpdate attempts an alert for a
container (controller.go lines 123-126): not ready, currently waiting,
pod opted in, and the waiting reason is "CrashLoopBackOff". -/
def crashLoopPred (pod : Pod) (c : ContainerStatus) : Bool :=
  !c.ready && c.state.waiting.isSome && hasValidAnn pod &&
    (waitingReason c == "CrashLoopBackOff")

/-- The triple returned by c.indexer.GetByKey(key): the interface value
(nil or a pod), the exists flag, and the error.  client-go's store returns
obj = nil whenever the flag is false. -/
structure StoreLookup where
  obj : Option Pod
  found : Bool
  err : Option String

/-- Go type assertion obj.(*v1.Pod): yields the pod, or panics on a nil
interface value. -/
def assertPod : Option Pod → Except String Pod
  | some p => Except.ok p
  | none => Except.error "interface conversion: interface \x7b\x7d is nil, not *v1.Pod"

/-- Result of one syncToStdout pass: a returned error, a runtime panic, or
a nil return carrying the updated timeouts and the notifications handed to
the notifier (with the notifier's discarded per-call result). -/
inductive SyncOutcome where
  | ok (timeouts : NatMap) (sent : List (SlackAttachment × Option String))
  | err (e : String)
  | crashed (msg : String)
deriving DecidableEq

/-- Whether the pass returned a non-nil error to handleErr. -/
def SyncOutcome.isErr : SyncOutcome → Bool
  | .err _ => true
  | _ => false

/-- The notifier results produced (and discarded) during the pass. -/
def SyncOutcome.notifyResults : SyncOutcome → List (Option String)
  | .ok _ sent => sent.map (fun r => r.2)
  | _ => []

/-- Go syncToStdout: on a store error return it; when the key is absent run
clearTimeout on obj.(*v1.Pod) - obj is nil there, so the assertion panics -
and return nil; when present run handlePodUpdate and return nil. -/
def syncToStdout (env : Env) (lk : StoreLookup) (now : Nat) (timeouts : NatMap) :
    SyncOutcome :=
  match lk.err with
  | some e => SyncOutcome.err e
  | none =>
    if !lk.found then
      match assertPod lk.obj with
      | Except.error m => SyncOutcome.crashed m
      | Except.ok p => SyncOutcome.ok (clearTimeout p timeouts) []
    else
      match assertPod lk.obj with
      | Except.error m => SyncOutcome.crashed m
      | Except.ok p =>
        let r := handlePodUpdate env p now timeouts
        SyncOutcome.ok r.1 r.2.2

/-- Work-queue failure counter, per the workqueue collaborator's contract
(spec 4.1): NumRequeues reads the per-key counter. -/
def numRequeues (m : NatMap) (k : String) : Nat := nGet m k

/-- AddRateLimited: re-enqueue with backoff, bumping the per-key counter. -/
def addRateLimited (m : NatMap) (k : String) : NatMap :=
  nSet m k (nGet m k + 1)

/-- Forget: reset the per-key failure counter. -/
def forget (m : NatMap) (k : String) : NatMap :=
  nDel m k

/-- Observable outcome of one handleErr call. -/
inductive ErrOutcome where
  | forgotten
  | requeued
  | dropped (e : String)
deriving DecidableEq

/-- Go handleErr over the failure-counter state. -/
def handleErr (err : Option String) (key : String) (m : NatMap) : NatMap × ErrOutcome :=
  match err with
  | none => (forget m key, ErrOutcome.forgotten)
  | some e =>
    if numRequeues m key < 5 then
      (addRateLimited m key, ErrOutcome.requeued)
    else
      (forget m key, ErrOutcome.dropped e)

/-- n consecutive failing reconciliations of one key starting from fresh
counters: the final counters plus the per-call outcomes in order. -/
def failureTrace (k e : String) : Nat → NatMap × List ErrOutcome
  | 0 => ([], [])
  | n + 1 =>
    let prev := failureTrace k e n
    let r := handleErr (some e) k prev.1
    (r.1, prev.2 ++ [r.2])

/-! Association-map lemmas. -/

theorem find_filter_ne (k k' : String) (h : k' ≠ k) :
    ∀ m : NatMap,
      (m.filter (fun p => !(p.1 == k))).find? (fun p => p.1 == k') =
        m.find? (fun p => p.1 == k') := by
  have hkk : (k' == k) = false := by simp [h]
  have hkk' : (k == k') = false := by
    simp
    exact fun hh => h hh.symm
  intro m
  induction m with
  | nil => rfl
  | cons a m ih =>
    by_cases h1 : a.1 = k'
    · simp [List.filter, List.find?, h1, hkk, ih]
    · have hk' : (a.1 == k') = false := by simp [h1]
      by_cases h2 : a.1 = k
      · simp [List.filter, List.find?, h2, hkk', hk', ih]
      · have hk : (a.1 == k) = false := by simp [h2]
        simp [List.filter, List.find?, hk, hk', ih]

theorem find_filter_self (k : String) :
    ∀ m : NatMap,
      (m.filter (fun p => !(p.1 == k))).find? (fun p => p.1 == k) = none := by
  intro m
  induction m with
  | nil => rfl
  | cons a m ih =>
    by_cases h1 : a.1 = k
    · simp [List.filter, List.find?, h1, ih]
    · have hk : (a.1 == k) = false := by simp [h1]
      simp [List.filter, List.find?, hk, ih]

theorem nGet_set_self (m : NatMap) (k : String) (v : Nat) :
    nGet (nSet m k v) k = v := by
  simp [nGet, nSet, List.find?]

theorem nGet_set_ne (m : NatMap) (k v : _) (k' : String) (h : k' ≠ k) :
    nGet (nSet m k v) k' = nGet m k' := by
  have hk : (k == k') = false := by
    simp
    exact fun hh => h hh.symm
  simp [nGet, nSet, List.find?, hk, find_filter_ne k k' h m]

theorem nGet_del_self (m : NatMap) (k : String) :
    nGet (nDel m k) k = 0 := by
  simp [nGet, nDel, find_filter_self k m]

theorem nHas_set (m : NatMap) (k : String) (v : Nat) (k' : String)
    (h : nHas m k' = true) : nHas (nSet m k v) k' = true := by
  by_cases h1 : k' = k
  · subst h1
    simp [nHas, nSet, List.find?]
  · simpa [nHas, nSet, List.find?, find_filter_ne k k' h1 m,
      show (k == k') = false by simp; exact fun hh => h1 hh.symm] using h

theorem nHas_false_nGet (m : NatMap) (k : String)
    (h : nHas m k = false) : nGet m k = 0 := by
  unfold nHas at h
  unfold nGet
  cases hf : m.find? (fun p => p.1 == k) with
  | none => rfl
  | some p => rw [hf] at h; simp at h

/-! Claim theorems. -/

/-- A pod carrying a well-formed backoff override of 30 seconds. -/
def podBackoff30 : Pod :=
  ⟨"pod-a", "default", [(annMattermostBackoff, "30")], ⟨[]⟩⟩

/-- C1: the claim says a well-formed integer override (here 30 seconds) is
used as the cool-down window.  The code's inverted err != nil guard skips
the assignment exactly when parsing succeeds, so the window stays at the
10-minute default: 31 seconds after the last notification the check still
returns false, where a 30-second window would have let it pass. -/
theorem refreshBackoff_valid_override_ignored :
    backoffOf podBackoff30 = annMattermostBackoffDefault ∧
      refreshBackoff podBackoff30 1031000000000 [("pod-a", 1000000000000)] =
        (false, [("pod-a", 1000000000000)]) := by
  constructor
  · decide
  · decide

/-- A pod whose backoff override annotation is present but non-numeric. -/
def podBackoffBad : Pod :=
  ⟨"pod-a", "default", [(annMattermostBackoff, "oops")], ⟨[]⟩⟩

/-- C2: the claim says a present but non-numeric override falls back to the
10-minute default.  In the code the err != nil branch is taken and installs
Atoi's zero result, so the window becomes 0 seconds: one second after the
last notification the check already returns true and restamps, where the
default window would have suppressed it. -/
theorem refreshBackoff_invalid_override_zero_window :
    backoffOf podBackoffBad = 0 ∧
      refreshBackoff podBackoffBad 1001000000000 [("pod-a", 1000000000000)] =
        (true, [("pod-a", 1001000000000)]) := by
  constructor
  · decide
  · decide

/-- C3: the claim says a pass over an absent (deleted) key clears the
debounce record and returns nil.  The store returns obj = nil alongside
exists = false, and the code runs c.clearTimeout(obj.(*v1.Pod)), a type
assertion on a nil interface value: the pass panics instead of clearing the
record and returning success. -/
theorem syncToStdout_deleted_key_crashes (env : Env) (now : Nat) (ts : NatMap) :
    syncToStdout env ⟨none, false, none⟩ now ts =
      SyncOutcome.crashed "interface conversion: interface \x7b\x7d is nil, not *v1.Pod" :=
  rfl

/-- refreshBackoff when the elapsed time is within the window. -/
theorem refreshBackoff_eq_false (pod : Pod) (now : Nat) (ts : NatMap)
    (h : (now : Int) - (nGet ts pod.name : Int) < backoffOf pod) :
    refreshBackoff pod now ts = (false, ts) := by
  unfold refreshBackoff
  rw [if_pos h]

/-- refreshBackoff when the window has elapsed. -/
theorem refreshBackoff_eq_true (pod : Pod) (now : Nat) (ts : NatMap)
    (h : ¬((now : Int) - (nGet ts pod.name : Int) < backoffOf pod)) :
    refreshBackoff pod now ts = (true, nSet ts pod.name now) := by
  unfold refreshBackoff
  rw [if_neg h]

/-- C4: the debounce check is true on the first evaluation of a fresh key
(provided the clock is at least one window past the zero time, which always
holds on a real clock), false strictly within the window measured from the
stored stamp, true at or after the window has elapsed, and the stored stamp
is rewritten to now exactly when the check returns true. -/
theorem refreshBackoff_debounce (pod : Pod) (now : Nat) (ts : NatMap) :
    (nHas ts pod.name = false → backoffOf pod ≤ (now : Int) →
      (refreshBackoff pod now ts).1 = true) ∧
    ((now : Int) - (nGet ts pod.name : Int) < backoffOf pod →
      refreshBackoff pod now ts = (false, ts)) ∧
    (backoffOf pod ≤ (now : Int) - (nGet ts pod.name : Int) →
      (refreshBackoff pod now ts).1 = true) ∧
    ((refreshBackoff pod now ts).1 = true →
      (refreshBackoff pod now ts).2 = nSet ts pod.name now ∧
        nGet (refreshBackoff pod now ts).2 pod.name = now) ∧
    ((refreshBackoff pod now ts).1 = false → (refreshBackoff pod now ts).2 = ts) := by
  by_cases hc : (now : Int) - (nGet ts pod.name : Int) < backoffOf pod
  · rw [refreshBackoff_eq_false pod now ts hc]
    refine ⟨?_, fun _ => rfl, ?_, ?_, fun _ => rfl⟩
    · intro hfresh hle
      rw [nHas_false_nGet ts pod.name hfresh] at hc
      exact absurd hc (by omega)
    · intro hge
      exact absurd hc (by omega)
    · intro h
      exact absurd h (by simp)
  · rw [refreshBackoff_eq_true pod now ts hc]
    refine ⟨fun _ _ => rfl, ?_, fun _ => rfl, ?_, ?_⟩
    · intro hlt
      exact absurd hlt hc
    · exact fun _ => ⟨rfl, nGet_set_self ts pod.name now⟩
    · intro h
      exact absurd h (by simp)

/-- A pod with no annotations: the default 10-minute window governs it. -/
def podFresh : Pod := ⟨"pod-w", "default", [], ⟨[]⟩⟩

/-- Witness for C4 at concrete inputs: fresh key passes, a check half a
second later is suppressed, a check 700 seconds later passes again. -/
theorem refreshBackoff_debounce_witness :
    (refreshBackoff podFresh 1000000000000 []).1 = true ∧
    refreshBackoff podFresh 1000500000000 [("pod-w", 1000000000000)] =
      (false, [("pod-w", 1000000000000)]) ∧
    (refreshBackoff podFresh 1700000000000 [("pod-w", 1000000000000)]).1 = true :=
  ⟨(refreshBackoff_debounce podFresh 1000000000000 []).1 (by decide) (by decide),
   (refreshBackoff_debounce podFresh 1000500000000 [("pod-w", 1000000000000)]).2.1
     (by decide),
   (refreshBackoff_debounce podFresh 1700000000000 [("pod-w", 1000000000000)]).2.2.1
     (by decide)⟩

/-- C10: a suppressed debounce check returns the timeouts map unchanged, and
no refreshBackoff call ever removes an entry from the map - removal happens
only in clearTimeout. -/
theorem refreshBackoff_suppressed_frame (p : Pod) (now : Nat) (ts : NatMap) :
    ((refreshBackoff p now ts).1 = false → (refreshBackoff p now ts).2 = ts) ∧
    (∀ k, nHas ts k = true → nHas (refreshBackoff p now ts).2 k = true) := by
  by_cases hc : (now : Int) - (nGet ts p.name : Int) < backoffOf p
  · rw [refreshBackoff_eq_false p now ts hc]
    exact ⟨fun _ => rfl, fun _ hk => hk⟩
  · rw [refreshBackoff_eq_true p now ts hc]
    refine ⟨?_, fun k hk => nHas_set ts p.name now k hk⟩
    intro h
    exact absurd h (by simp)

/-- Witness for C10 at concrete inputs: a suppressed check leaves the map
untouched and the stored entry present. -/
theorem refreshBackoff_suppressed_frame_witness :
    (refreshBackoff podFresh 1000500000000 [("pod-w", 1000000000000)]).2 =
      [("pod-w", 1000000000000)] ∧
    nHas (refreshBackoff podFresh 1000500000000 [("pod-w", 1000000000000)]).2
      "pod-w" = true :=
  ⟨(refreshBackoff_suppressed_frame podFresh 1000500000000
      [("pod-w", 1000000000000)]).1 (by decide),
   (refreshBackoff_suppressed_frame podFresh 1000500000000
      [("pod-w", 1000000000000)]).2 "pod-w" (by decide)⟩

/-- One unfolding step of failureTrace. -/
theorem failureTrace_succ (k e : String) (n : Nat) :
    failureTrace k e (n + 1) =
      ((handleErr (some e) k (failureTrace k e n).1).1,
        (failureTrace k e n).2 ++ [(handleErr (some e) k (failureTrace k e n).1).2]) := rfl

/-- C5: handleErr re-enqueues a failed key exactly while its requeue counter
is below 5; at counter 5 (the 6th consecutive failure) it resets the counter
and surfaces the error instead of retrying; a nil error always resets the
counter to zero.  Starting from fresh counters, six consecutive failures
yield five retries and then one drop, with the counter back at zero. -/
theorem handleErr_retry_policy (k e : String) (m : NatMap) :
    ((handleErr (some e) k m).2 = ErrOutcome.requeued ↔ numRequeues m k < 5) ∧
    (5 ≤ numRequeues m k →
      handleErr (some e) k m = (forget m k, ErrOutcome.dropped e)) ∧
    handleErr none k m = (forget m k, ErrOutcome.forgotten) ∧
    numRequeues (handleErr none k m).1 k = 0 ∧
    (failureTrace k e 6).2 =
      [ErrOutcome.requeued, ErrOutcome.requeued, ErrOutcome.requeued,
        ErrOutcome.requeued, ErrOutcome.requeued, ErrOutcome.dropped e] ∧
    numRequeues (failureTrace k e 6).1 k = 0 := by
  have hE : ∀ v : Nat, v < 5 →
      handleErr (some e) k [(k, v)] = ([(k, v + 1)], ErrOutcome.requeued) := by
    intro v hv
    simp [handleErr, numRequeues, addRateLimited, nGet, nSet, List.find?,
      List.filter, hv]
  have hE5 : handleErr (some e) k [(k, 5)] = ([], ErrOutcome.dropped e) := by
    simp [handleErr, numRequeues, forget, nGet, nDel, List.find?, List.filter]
  have t1 : failureTrace k e 1 = ([(k, 1)], [ErrOutcome.requeued]) := rfl
  have t2 : failureTrace k e 2 =
      ([(k, 2)], [ErrOutcome.requeued, ErrOutcome.requeued]) := by
    have h := failureTrace_succ k e 1
    norm_num at h
    rw [h, t1, hE 1 (by omega)]
    simp
  have t3 : failureTrace k e 3 = ([(k, 3)],
      [ErrOutcome.requeued, ErrOutcome.requeued, ErrOutcome.requeued]) := by
    have h := failureTrace_succ k e 2
    norm_num at h
    rw [h, t2, hE 2 (by omega)]
    simp
  have t4 : failureTrace k e 4 = ([(k, 4)],
      [ErrOutcome.requeued, ErrOutcome.requeued, ErrOutcome.requeued,
        ErrOutcome.requeued]) := by
    have h := failureTrace_succ k e 3
    norm_num at h
    rw [h, t3, hE 3 (by omega)]
    simp
  have t5 : failureTrace k e 5 = ([(k, 5)],
      [ErrOutcome.requeued, ErrOutcome.requeued, ErrOutcome.requeued,
        ErrOutcome.requeued, ErrOutcome.requeued]) := by
    have h := failureTrace_succ k e 4
    norm_num at h
    rw [h, t4, hE 4 (by omega)]
    simp
  have t6 : failureTrace k e 6 = ([],
      [ErrOutcome.requeued, ErrOutcome.requeued, ErrOutcome.requeued,
        ErrOutcome.requeued, ErrOutcome.requeued, ErrOutcome.dropped e]) := by
    have h := failureTrace_succ k e 5
    norm_num at h
    rw [h, t5, hE5]
    simp
  refine ⟨?_, ?_, rfl, ?_, ?_, ?_⟩
  · by_cases h : numRequeues m k < 5 <;> simp [handleErr, h]
  · intro h
    have h5 : ¬numRequeues m k < 5 := by omega
    simp [handleErr, h5]
  · simpa [handleErr, numRequeues, forget] using nGet_del_self m k
  · rw [t6]
  · rw [t6]
    rfl

/-- Witness for C5 at concrete inputs: a key whose counter stands at 5 is
dropped with the counter cleared, and a nil error resets a counter of 3. -/
theorem handleErr_retry_policy_witness :
    handleErr (some "boom") "pods/web" [("pods/web", 5)] =
      (forget [("pods/web", 5)] "pods/web", ErrOutcome.dropped "boom") ∧
    numRequeues (handleErr none "pods/web" [("pods/web", 3)]).1 "pods/web" = 0 :=
  ⟨(handleErr_retry_policy "pods/web" "boom" [("pods/web", 5)]).2.1 (by decide),
   (handleErr_retry_policy "pods/web" "none-used" [("pods/web", 3)]).2.2.2.1⟩

/-- The containers handleContainers attempts an alert for are exactly those
satisfying crashLoopPred, and without the opt-in annotation nothing is ever
handed to the notifier. -/
theorem handleContainers_spec (env : Env) (pod : Pod) (now : Nat) :
    ∀ (cs : List ContainerStatus) (ts : NatMap),
      (handleContainers env pod now cs ts).2.1 = cs.filter (crashLoopPred pod) ∧
      (hasValidAnn pod = false → (handleContainers env pod now cs ts).2.2 = []) := by
  intro cs
  induction cs with
  | nil => exact fun ts => ⟨rfl, fun _ => rfl⟩
  | cons c rest ih =>
    intro ts
    by_cases h1 : (!c.ready && c.state.waiting.isSome && hasValidAnn pod) = true
    · by_cases h2 : (waitingReason c == "CrashLoopBackOff") = true
      · have hp : crashLoopPred pod c = true := by
          simp only [crashLoopPred]
          simp only [Bool.and_eq_true] at h1 ⊢
          exact ⟨h1, h2⟩
        have hann : hasValidAnn pod = true := by
          simp only [Bool.and_eq_true] at h1
          exact h1.2
        constructor
        · cases hr : (refreshBackoff pod now ts).1 <;>
            simp [handleContainers, h1, h2, hr, hp, List.filter_cons,
              (ih (refreshBackoff pod now ts).2).1]
        · intro hf
          rw [hf] at hann
          exact absurd hann (by simp)
      · have hp : crashLoopPred pod c = false := by
          simp only [crashLoopPred]
          rw [Bool.and_eq_false_iff]
          right
          simpa using h2
        refine ⟨?_, fun hf => ?_⟩
        · simp [handleContainers, h1, h2, hp, List.filter_cons, (ih ts).1]
        · simpa [handleContainers, h1, h2] using (ih ts).2 hf
    · have hp : crashLoopPred pod c = false := by
        simp only [crashLoopPred]
        rw [Bool.and_eq_false_iff]
        left
        simpa using h1
      refine ⟨?_, fun hf => ?_⟩
      · simp [handleContainers, h1, hp, List.filter_cons, (ih ts).1]
      · simpa [handleContainers, h1] using (ih ts).2 hf

/-- C7: an alert is attempted for a container exactly when it is not ready,
currently waiting with reason "CrashLoopBackOff", and the pod carries the
opt-in annotation; a pod without the opt-in annotation never sends an alert,
however often its crash-loop state recurs. -/
theorem handlePodUpdate_attempts (env : Env) (pod : Pod) (now : Nat) (ts : NatMap) :
    (handlePodUpdate env pod now ts).2.1 =
      pod.status.containerStatuses.filter (crashLoopPred pod) ∧
    (hasValidAnn pod = false → (handlePodUpdate env pod now ts).2.2 = []) := by
  unfold handlePodUpdate
  exact handleContainers_spec env pod now pod.status.containerStatuses ts

/-- A container stuck in CrashLoopBackOff. -/
def cwCrash : ContainerStatus :=
  ⟨"main", false, ⟨some ⟨"CrashLoopBackOff"⟩, none⟩, ⟨none, none⟩⟩

/-- A crash-looping pod without the opt-in annotation. -/
def podNoAnn : Pod := ⟨"pod-b", "default", [], ⟨[cwCrash]⟩⟩

/-- An environment whose log fetch succeeds and whose notifier succeeds. -/
def envW : Env := ⟨fun _ _ _ => some "some logs", fun _ => none⟩

/-- Witness for C7 at concrete inputs: the non-opted-in crash-looping pod
sends nothing. -/
theorem handlePodUpdate_attempts_witness :
    (handlePodUpdate envW podNoAnn 1000000000000 []).2.2 = [] :=
  (handlePodUpdate_attempts envW podNoAnn 1000000000000 []).2 (by decide)

/-- A crash-looping pod carrying the opt-in annotation. -/
def podOptIn : Pod :=
  ⟨"pod-a", "default", [(annEnableMattermost, annEnableMattermostInform)], ⟨[cwCrash]⟩⟩

/-- An environment whose log fetch succeeds but whose notifier send fails. -/
def envFailSend : Env :=
  ⟨fun _ _ _ => some "the logs", fun _ => some "mattermost transport failure"⟩

/-- C6 counterexample: in a pass over an opted-in crash-looping pod the
notifier call errors, yet the business-logic step returns nil (not an
error), so the notifier transport failure never reaches the error handler
and the alert is simply lost. -/
theorem syncToStdout_notifier_error_swallowed :
    ((syncToStdout envFailSend ⟨some podOptIn, true, none⟩ 1000000000000
        []).notifyResults.any Option.isSome) = true ∧
    (syncToStdout envFailSend ⟨some podOptIn, true, none⟩ 1000000000000
        []).isErr = false := by
  constructor
  · decide
  · decide

/-- A pass whose store lookup reports no error never returns an error. -/
theorem syncToStdout_no_store_err (env : Env) (lk : StoreLookup) (now : Nat)
    (ts : NatMap) (h : lk.err = none) :
    (syncToStdout env lk now ts).isErr = false := by
  unfold syncToStdout
  rw [h]
  by_cases hf : lk.found <;> cases ha : assertPod lk.obj <;>
    simp [hf, ha, SyncOutcome.isErr]

/-- C6 amended: the only error the business-logic step ever returns to the
error handler is the store-lookup error; notifier transport failures are
discarded inside the notification send and never surface, so they are not
retried. -/
theorem syncToStdout_err_from_store_only (env : Env) (lk : StoreLookup)
    (now : Nat) (ts : NatMap) (e : String) :
    (syncToStdout env lk now ts = SyncOutcome.err e → lk.err = some e) ∧
    (lk.err = some e → syncToStdout env lk now ts = SyncOutcome.err e) := by
  constructor
  · intro h
    cases hlk : lk.err with
    | some e0 =>
      unfold syncToStdout at h
      rw [hlk] at h
      injection h with h2
      rw [h2]
    | none =>
      have hno := syncToStdout_no_store_err env lk now ts hlk
      rw [h] at hno
      exact absurd hno (by simp [SyncOutcome.isErr])
  · intro h
    unfold syncToStdout
    rw [h]

/-- Witness for the amended C6 at concrete inputs: a store error is returned
verbatim. -/
theorem syncToStdout_err_from_store_only_witness :
    syncToStdout envW ⟨none, false, some "store boom"⟩ 0 [] =
      SyncOutcome.err "store boom" :=
  (syncToStdout_err_from_store_only envW ⟨none, false, some "store boom"⟩ 0 []
    "store boom").2 rfl

/-- Two pods sharing a name across different namespaces. -/
def podX : Pod := ⟨"web", "team-a", [], ⟨[]⟩⟩

/-- Same name as podX, different namespace. -/
def podY : Pod := ⟨"web", "team-b", [], ⟨[]⟩⟩

/-- C8 counterexample: the debounce map is keyed by pod.GetName() alone, so
after an alert for "web" in namespace team-a, the never-alerted pod "web" in
namespace team-b is suppressed one second later by the other pod's record:
the two records are not independent. -/
theorem refreshBackoff_cross_namespace_shared :
    refreshBackoff podX 1000000000000 [] = (true, [("web", 1000000000000)]) ∧
    refreshBackoff podY 1001000000000 [("web", 1000000000000)] =
      (false, [("web", 1000000000000)]) := by
  constructor
  · decide
  · decide

/-- C8 amended: debounce state is indexed by the pod name alone - namespace
plays no role - so two pods with equal names (and equal backoff override
values) are handled identically by refreshBackoff and clearTimeout whatever
their namespaces, sharing one debounce record. -/
theorem refreshBackoff_keyed_by_name (p q : Pod) (now : Nat) (ts : NatMap)
    (hname : p.name = q.name)
    (hann : annGet p.annots annMattermostBackoff =
      annGet q.annots annMattermostBackoff) :
    refreshBackoff p now ts = refreshBackoff q now ts ∧
    clearTimeout p ts = clearTimeout q ts := by
  have hb : backoffOf p = backoffOf q := by
    unfold backoffOf
    rw [hann]
  constructor
  · unfold refreshBackoff
    rw [hname, hb]
  · unfold clearTimeout
    rw [hname]

/-- Witness for the amended C8 at concrete inputs. -/
theorem refreshBackoff_keyed_by_name_witness :
    refreshBackoff podX 1000000000000 [] = refreshBackoff podY 1000000000000 [] ∧
    clearTimeout podX [] = clearTimeout podY [] :=
  refreshBackoff_keyed_by_name podX podY 1000000000000 [] rfl rfl

/-- C9: a failed container-log fetch does not abort the alert: the
attachment is still handed to the notifier, with the logs field carrying
empty content. -/
theorem sendCrashNotification_logs_degrade (env : Env) (pod : Pod)
    (c : ContainerStatus) (h : env.fetchLogs pod.ns pod.name c.name = none) :
    (sendCrashNotification env pod c).2 =
      env.notifySend (sendCrashNotification env pod c).1 ∧
    (sendCrashNotification env pod c).1.fields.head? =
      some ⟨"Logs", "```\n```"⟩ := by
  constructor
  · rfl
  · unfold sendCrashNotification
    rw [h]
    cases c.lastTerminationState.terminated <;> simp

/-- An environment whose log fetch always fails. -/
def envNoLogs : Env := ⟨fun _ _ _ => none, fun _ => none⟩

/-- Witness for C9 at concrete inputs: with a failing log fetch the alert
still carries a Logs field with empty content. -/
theorem sendCrashNotification_logs_degrade_witness :
    envNoLogs.fetchLogs "default" "pod-b" "main" = none ∧
    (sendCrashNotification envNoLogs podNoAnn cwCrash).1.fields.head? =
      some ⟨"Logs", "```\n```"⟩ :=
  ⟨rfl, (sendCrashNotification_logs_degrade envNoLogs podNoAnn cwCrash rfl).2⟩
